import Mathlib

/-!
Verification development for the dc-license-bot auto-publish workflow.

The Rust sources are shallowly embedded as pure Lean functions:
  * the SQL-backed services (`LicenseService`, `UserSettingsService`,
    `PublishedPostsService`) act on an explicit `BotDatabase` value whose
    tables are lists of rows;
  * effectful handler code returns, next to the updated database, a list of
    `Effect` values recording the externally visible actions (store reads,
    message sends, notifications);
  * every `await_component_interaction`/modal wait is driven by an explicit
    event script; an exhausted script plays the role of a timeout.
Machine integers (i32/i64/u64 ids, timestamps) are embedded as `Int`/`Nat`;
none of the embedded arithmetic can overflow on the field ranges that the
claims exercise, so no wrap-around modelling is needed.
-/

namespace DcBot

/-- Source `types/license.rs`: a read-only system license template. -/
structure SystemLicense where
  license_name : String
  allow_redistribution : Bool
  allow_modification : Bool
  restrictions_note : Option String
  allow_backup : Bool
deriving DecidableEq, Repr

/-- Source `entities::user_licenses::Model`: a persisted user license row
(columns from `migration/src/m20250708_000001_create_user_tables.rs`). -/
structure UserLicense where
  id : Int
  user_id : Int
  license_name : String
  allow_redistribution : Bool
  allow_modification : Bool
  restrictions_note : Option String
  allow_backup : Bool
  usage_count : Int
  created_at : Int
deriving DecidableEq, Repr

/-- Source `SystemLicense::to_user_license`: turn a template into an in-memory
license model for the given user, with the given sentinel id. -/
def SystemLicense.to_user_license (s : SystemLicense) (user_id : Int) (index : Int)
    (now : Int) : UserLicense :=
  { id := index
    user_id := user_id
    license_name := s.license_name
    allow_redistribution := s.allow_redistribution
    allow_modification := s.allow_modification
    restrictions_note := s.restrictions_note
    allow_backup := s.allow_backup
    usage_count := 0
    created_at := now }

/-- Source `entities::user_settings::Model`: one settings row per user
(columns from the migration). -/
structure UserSettings where
  user_id : Int
  auto_publish_enabled : Bool
  skip_auto_publish_confirmation : Bool
  default_user_license_id : Option Int
  default_system_license_name : Option String
  default_system_license_backup : Option Bool
deriving DecidableEq, Repr

/-- Source `entities::published_posts::Model`: the per-thread published
announcement record. -/
structure PublishedPost where
  thread_id : Int
  message_id : Int
  user_id : Int
  backup_allowed : Bool
  updated_at : Int
deriving DecidableEq, Repr

/-- Source `types/license.rs`: `DefaultLicenseIdentifier`. -/
inductive DefaultLicenseIdentifier where
  | User (id : Int)
  | System (name : String)
deriving DecidableEq, Repr

/-- The SQLite store, with each table as a list of rows.  `next_license_id`
models the auto-increment primary key of `user_licenses`. -/
structure BotDatabase where
  user_settings : List UserSettings
  user_licenses : List UserLicense
  published_posts : List PublishedPost
  next_license_id : Int
deriving DecidableEq, Repr

/-! ## `services/license/service.rs` -/

namespace LicenseService

/-- Source `LicenseService::get_user_license_count`: `COUNT(*)` over the user's rows. -/
def get_user_license_count (db : BotDatabase) (user_id : Int) : Nat :=
  (db.user_licenses.filter (fun l => l.user_id == user_id)).length

/-- Source `LicenseService::create`: reject when the user already owns 5 licenses,
otherwise insert one fresh row with `usage_count = 0`. -/
def create (db : BotDatabase) (user_id : Int) (license_name : String)
    (allow_redistribution : Bool) (allow_modification : Bool)
    (restrictions_note : Option String) (allow_backup : Bool) (now : Int) :
    Except String (UserLicense × BotDatabase) :=
  if get_user_license_count db user_id ≥ 5 then
    .error "您最多只能创建5个协议，请先删除一些协议。"
  else
    let license : UserLicense :=
      { id := db.next_license_id
        user_id := user_id
        license_name := license_name
        allow_redistribution := allow_redistribution
        allow_modification := allow_modification
        restrictions_note := restrictions_note
        allow_backup := allow_backup
        usage_count := 0
        created_at := now }
    .ok (license,
      { db with
          user_licenses := db.user_licenses ++ [license]
          next_license_id := db.next_license_id + 1 })

/-- Source `LicenseService::get_license`: row with the given id owned by the user. -/
def get_license (db : BotDatabase) (license_id : Int) (user_id : Int) :
    Option UserLicense :=
  db.user_licenses.find? (fun l => l.id == license_id && l.user_id == user_id)

/-- Source `LicenseService::increment_usage`: `UPDATE ... SET usage_count = usage_count + 1
WHERE id = ? AND user_id = ?`. -/
def increment_usage (db : BotDatabase) (license_id : Int) (user_id : Int) :
    BotDatabase :=
  { db with
      user_licenses := db.user_licenses.map (fun l =>
        if l.id == license_id && l.user_id == user_id then
          { l with usage_count := l.usage_count + 1 }
        else l) }

end LicenseService

/-! ## `services/user_settings.rs` -/

namespace UserSettingsService

/-- The row inserted by `get_or_create` (unset columns take the schema
defaults `false`/`NULL`). -/
def defaultSettings (user_id : Int) : UserSettings :=
  { user_id := user_id
    auto_publish_enabled := false
    skip_auto_publish_confirmation := false
    default_user_license_id := none
    default_system_license_name := none
    default_system_license_backup := none }

/-- Source `UserSettingsService::get`: row for the user, if any. -/
def get (db : BotDatabase) (user_id : Int) : Option UserSettings :=
  db.user_settings.find? (fun s => s.user_id == user_id)

/-- Source `UserSettingsService::get_or_create`. -/
def get_or_create (db : BotDatabase) (user_id : Int) :
    UserSettings × BotDatabase :=
  match get db user_id with
  | some s => (s, db)
  | none =>
    (defaultSettings user_id,
     { db with user_settings := db.user_settings ++ [defaultSettings user_id] })

/-- ActiveModel `update`: replace the row keyed by `user_id`. -/
def updateRow (db : BotDatabase) (user_id : Int) (s' : UserSettings) :
    BotDatabase :=
  { db with
      user_settings := db.user_settings.map (fun s =>
        if s.user_id == user_id then s' else s) }

/-- Source `UserSettingsService::set_auto_publish`. -/
def set_auto_publish (db : BotDatabase) (user_id : Int) (enabled : Bool) :
    UserSettings × BotDatabase :=
  let sdb := get_or_create db user_id
  let s' := { sdb.1 with auto_publish_enabled := enabled }
  (s', updateRow sdb.2 user_id s')

/-- Source `UserSettingsService::set_default_license`: the three-way match of the
source, each arm clearing the other variant's column. -/
def set_default_license (db : BotDatabase) (user_id : Int)
    (license : Option DefaultLicenseIdentifier) : UserSettings × BotDatabase :=
  let sdb := get_or_create db user_id
  let s' :=
    match license with
    | some (.User id) =>
      { sdb.1 with
          default_user_license_id := some id
          default_system_license_name := none }
    | some (.System name) =>
      { sdb.1 with
          default_user_license_id := none
          default_system_license_name := some name }
    | none =>
      { sdb.1 with
          default_user_license_id := none
          default_system_license_name := none }
  (s', updateRow sdb.2 user_id s')

/-- Source `UserSettingsService::toggle_auto_publish`. -/
def toggle_auto_publish (db : BotDatabase) (user_id : Int) :
    UserSettings × BotDatabase :=
  let sdb := get_or_create db user_id
  let s' := { sdb.1 with auto_publish_enabled := !sdb.1.auto_publish_enabled }
  (s', updateRow sdb.2 user_id s')

/-- Source `UserSettingsService::clear_default_license`. -/
def clear_default_license (db : BotDatabase) (user_id : Int) :
    UserSettings × BotDatabase :=
  set_default_license db user_id none

/-- Source `UserSettingsService::delete`. -/
def delete (db : BotDatabase) (user_id : Int) : Bool × BotDatabase :=
  let remaining := db.user_settings.filter (fun s => !(s.user_id == user_id))
  (remaining.length < db.user_settings.length,
   { db with user_settings := remaining })

/-- Source `UserSettingsService::update_settings`: optionally update the enabled
flag and/or the default-license reference. -/
def update_settings (db : BotDatabase) (user_id : Int)
    (auto_publish_enabled : Option Bool)
    (default_license : Option (Option DefaultLicenseIdentifier)) :
    UserSettings × BotDatabase :=
  let sdb := get_or_create db user_id
  let s1 :=
    match auto_publish_enabled with
    | some enabled => { sdb.1 with auto_publish_enabled := enabled }
    | none => sdb.1
  let s2 :=
    match default_license with
    | some (some (.User id)) =>
      { s1 with
          default_user_license_id := some id
          default_system_license_name := none }
    | some (some (.System name)) =>
      { s1 with
          default_user_license_id := none
          default_system_license_name := some name }
    | some none =>
      { s1 with
          default_user_license_id := none
          default_system_license_name := none }
    | none => s1
  (s2, updateRow sdb.2 user_id s2)

end UserSettingsService

/-! ## `services/published_posts.rs` -/

namespace PublishedPostsService

/-- Source `PublishedPostsService::get_by_thread`. -/
def get_by_thread (db : BotDatabase) (thread_id : Int) : Option PublishedPost :=
  db.published_posts.find? (fun p => p.thread_id == thread_id)

/-- Source `PublishedPostsService::record`: insert a fresh row. -/
def record (db : BotDatabase) (thread_id message_id user_id : Int)
    (backup_allowed : Bool) (now : Int) : PublishedPost × BotDatabase :=
  let post : PublishedPost :=
    { thread_id := thread_id
      message_id := message_id
      user_id := user_id
      backup_allowed := backup_allowed
      updated_at := now }
  (post, { db with published_posts := db.published_posts ++ [post] })

/-- Source `PublishedPostsService::update`: rewrite the row keyed by `thread_id`,
if present. -/
def update (db : BotDatabase) (thread_id message_id : Int)
    (backup_allowed : Bool) (now : Int) :
    Option PublishedPost × BotDatabase :=
  match get_by_thread db thread_id with
  | some post =>
    let post' :=
      { post with
          message_id := message_id
          backup_allowed := backup_allowed
          updated_at := now }
    (some post',
     { db with
         published_posts := db.published_posts.map (fun p =>
           if p.thread_id == thread_id then post' else p) })
  | none => (none, db)

/-- Source `PublishedPostsService::record_or_update` (upsert). -/
def record_or_update (db : BotDatabase) (thread_id message_id user_id : Int)
    (backup_allowed : Bool) (now : Int) : PublishedPost × BotDatabase :=
  match update db thread_id message_id backup_allowed now with
  | (some updated, db') => (updated, db')
  | (none, _) => record db thread_id message_id user_id backup_allowed now

/-- Source `PublishedPostsService::has_backup_permission_changed`. -/
def has_backup_permission_changed (db : BotDatabase) (thread_id : Int)
    (new_backup_allowed : Bool) : Bool :=
  match get_by_thread db thread_id with
  | some post => post.backup_allowed != new_backup_allowed
  | none => new_backup_allowed

end PublishedPostsService

/-! ## Externally visible effects

Handlers return, besides the updated database, the list of external actions
they performed, in program order: store reads, Discord message operations and
outbound notifications.  Database writes are visible directly in the returned
`BotDatabase`. -/

inductive Effect where
  /-- Source `user_settings().get(owner_id)` -/
  | readUserSettings (user_id : Int)
  /-- Source `license().get_license(id, owner_id)` -/
  | readLicense (license_id : Int) (user_id : Int)
  /-- Source `system_license_cache().get_all()` -/
  | readSystemLicenses
  /-- the new-user enable/disable guidance message, sent into the thread -/
  | sendGuidancePrompt
  /-- the auto-publish confirm/cancel panel, sent into the thread -/
  | sendConfirmPanel
  /-- the license selection menu (ephemeral interaction response) -/
  | sendSelectionMenu
  /-- the license announcement message, sent into the thread -/
  | sendAnnouncement (message_id : Int)
  /-- pin the freshly sent announcement -/
  | pinMessage (message_id : Int)
  /-- edit an old announcement into its obsolete form -/
  | markObsolete (message_id : Int)
  /-- unpin an old announcement -/
  | unpinMessage (message_id : Int)
  /-- outbound backup-permission notification webhook -/
  | notifyBackup (backup_allowed : Bool)
  /-- delete a transient UI message -/
  | deleteMessage
  /-- an ephemeral interaction response with plain text -/
  | sendEphemeral
  /-- an ephemeral follow-up message -/
  | sendFollowup
deriving DecidableEq, Repr

namespace Effect

/-- Announcement sends (the only non-ephemeral, user-visible publish output). -/
def isAnnouncement : Effect → Bool
  | .sendAnnouncement _ => true
  | _ => false

/-- Outbound backup notifications. -/
def isNotification : Effect → Bool
  | .notifyBackup _ => true
  | _ => false

/-- Workflow prompts (guidance, confirm panel, selection menu). -/
def isPrompt : Effect → Bool
  | .sendGuidancePrompt => true
  | .sendConfirmPanel => true
  | .sendSelectionMenu => true
  | _ => false

end Effect

/-- Number of announcement messages in an effect trace. -/
def countAnnouncements (effects : List Effect) : Nat :=
  (effects.filter Effect.isAnnouncement).length

/-- Number of outbound backup notifications in an effect trace. -/
def countNotifications (effects : List Effect) : Nat :=
  (effects.filter Effect.isNotification).length

/-! ## `services/license/publish_service.rs` -/

namespace LicensePublishService

/-- Source `LicensePublishService::publish`, as the sequential composition of its
five steps.  `new_message_id` is the id Discord assigns to the freshly sent
announcement; the cosmetic member/display-name lookups are omitted. -/
def publish (db : BotDatabase) (thread_id : Int) (license : UserLicense)
    (backup_allowed : Bool) (author_id : Int) (new_message_id : Int)
    (now : Int) : BotDatabase × List Effect :=
  -- 1. handle_existing_license: relabel and unpin a previous announcement
  let obsoleteEffects : List Effect :=
    match PublishedPostsService.get_by_thread db thread_id with
    | some existing =>
      [.markObsolete existing.message_id, .unpinMessage existing.message_id]
    | none => []
  -- 2. publish_new_message: send the announcement and pin it
  let sendEffects : List Effect :=
    [.sendAnnouncement new_message_id, .pinMessage new_message_id]
  -- 3. update_database_records: change check against the pre-upsert record,
  --    then the upsert itself
  let backup_changed :=
    PublishedPostsService.has_backup_permission_changed db thread_id
      backup_allowed
  let db1 :=
    (PublishedPostsService.record_or_update db thread_id new_message_id
      author_id backup_allowed now).2
  -- 4. send_backup_notification_if_needed
  let notifyEffects : List Effect :=
    if backup_changed then [.notifyBackup backup_allowed] else []
  -- 5. increment_usage_count
  let db2 := LicenseService.increment_usage db1 license.id author_id
  (db2, obsoleteEffects ++ sendEffects ++ notifyEffects)

end LicensePublishService

/-! ## `utils/editor_core.rs` / `utils/license_editor.rs`: the draft editor -/

/-- Source `LicenseEditState`: the transient, in-memory draft of a license. -/
structure LicenseEditState where
  license_name : String
  allow_redistribution : Bool
  allow_modification : Bool
  restrictions_note : Option String
  allow_backup : Bool
deriving DecidableEq, Repr

namespace LicenseEditState

/-- Source `LicenseEditState::new`. -/
def new (name : String) : LicenseEditState :=
  { license_name := name
    allow_redistribution := false
    allow_modification := false
    restrictions_note := none
    allow_backup := false }

/-- Source `LicenseEditState::from_existing`. -/
def from_existing (name : String) (allow_redistribution allow_modification : Bool)
    (restrictions_note : Option String) (allow_backup : Bool) : LicenseEditState :=
  { license_name := name
    allow_redistribution := allow_redistribution
    allow_modification := allow_modification
    restrictions_note := restrictions_note
    allow_backup := allow_backup }

/-- Source `LicenseEditState::from_system_license`. -/
def from_system_license (s : SystemLicense) : LicenseEditState :=
  { license_name := s.license_name
    allow_redistribution := s.allow_redistribution
    allow_modification := s.allow_modification
    restrictions_note := s.restrictions_note
    allow_backup := s.allow_backup }

/-- Source `LicenseEditState::to_user_license_fields`. -/
def to_user_license_fields (s : LicenseEditState) :
    String × Bool × Bool × Option String × Bool :=
  (s.license_name, s.allow_redistribution, s.allow_modification,
   s.restrictions_note, s.allow_backup)

end LicenseEditState

/-- The restrictions form maps a whitespace-only submission to `None`. -/
def trimOrNone (value : String) : Option String :=
  if value.trim.isEmpty then none else some value

/-- One editor interaction, as the editor's `handle_interaction` sees it:
either a button press (with its `custom_id`) identified by the component
wait, or, for the text-edit buttons, the subsequent modal submission. -/
inductive EditorAction where
  /-- Source `"edit_name"` press; `value` is the modal submission, `none` when the
  modal wait produced no submission -/
  | edit_name (value : Option String)
  /-- Source `"edit_restrictions"` press with its modal submission -/
  | edit_restrictions (value : Option String)
  | toggle_redistribution
  | toggle_modification
  | toggle_backup
  | save
  | cancel
  | unknown
deriving DecidableEq, Repr

namespace EditorCore

/-- The state/exit effect of `EditorCore::handle_interaction` (equally of
`LicenseEditor::handle_interaction`): the returned flag is the `Ok(bool)`
"should exit" result; UI effects are omitted here. -/
def handleInteraction (action : EditorAction) (state : LicenseEditState) :
    LicenseEditState × Bool :=
  match action with
  | .edit_name value =>
    (match value with
     | some v => ({ state with license_name := v }, false)
     | none => (state, false))
  | .edit_restrictions value =>
    (match value with
     | some v => ({ state with restrictions_note := trimOrNone v }, false)
     | none => (state, false))
  | .toggle_redistribution =>
    ({ state with allow_redistribution := !state.allow_redistribution }, false)
  | .toggle_modification =>
    ({ state with allow_modification := !state.allow_modification }, false)
  | .toggle_backup =>
    ({ state with allow_backup := !state.allow_backup }, false)
  | .save => (state, true)
  | .cancel => (state, true)
  | .unknown => (state, false)

end EditorCore

/-- One event delivered to an editor wait point: a component press delivered
to the main `await_component_interaction` wait, or a text-form submission
delivered to an `await_modal_interaction` wait. -/
inductive EditorEvent where
  | component (custom_id : String)
  | modalSubmit (value : String)
deriving DecidableEq, Repr

/-- How an editor sub-session ended. -/
inductive EditorExit where
  | saved
  | cancelled
  | timedOut
deriving DecidableEq, Repr

/-- Result of an editor sub-session.  `trailingWait` is the number of
seconds the session spent inside waits that began after the event script was
exhausted, i.e. after the user's last action; `cleanedUp` records that the
exit path edited the editor UI away. -/
structure EditorOutcome where
  state : Option LicenseEditState
  exit : EditorExit
  trailingWait : Nat
  cleanedUp : Bool
deriving DecidableEq, Repr

/-- Source `present_license_editing_panel_with_serenity_context`: the main editor
loop, driven by an event script.  Every component wait and every modal wait
uses a 300-second timeout in the source; a wait that runs with an exhausted
script times out after its full 300 seconds.  A modal wait consumes the next
event only when it is a modal submission (Discord would not deliver anything
else to it); a timed-out modal wait returns to the main loop, as
`handle_interaction` returns `Ok(false)` in the source. -/
def runSerenityLicenseEditor (state : LicenseEditState) :
    List EditorEvent → EditorOutcome
  | [] =>
    { state := none, exit := .timedOut, trailingWait := 300, cleanedUp := true }
  | .modalSubmit _ :: rest =>
    -- not deliverable to the component wait; treated like an unknown
    -- interaction (the source logs and continues)
    runSerenityLicenseEditor state rest
  | .component cid :: rest =>
    if cid = "save_license" then
      { state := some state, exit := .saved, trailingWait := 0, cleanedUp := true }
    else if cid = "cancel_license" then
      { state := none, exit := .cancelled, trailingWait := 0, cleanedUp := true }
    else if cid = "edit_name" then
      match rest with
      | .modalSubmit v :: rest' =>
        runSerenityLicenseEditor { state with license_name := v } rest'
      | other =>
        let r := runSerenityLicenseEditor state other
        if other.isEmpty then { r with trailingWait := 300 + r.trailingWait }
        else r
    else if cid = "edit_restrictions" then
      match rest with
      | .modalSubmit v :: rest' =>
        runSerenityLicenseEditor
          { state with restrictions_note := trimOrNone v } rest'
      | other =>
        let r := runSerenityLicenseEditor state other
        if other.isEmpty then { r with trailingWait := 300 + r.trailingWait }
        else r
    else if cid = "toggle_redistribution" then
      runSerenityLicenseEditor
        { state with allow_redistribution := !state.allow_redistribution } rest
    else if cid = "toggle_modification" then
      runSerenityLicenseEditor
        { state with allow_modification := !state.allow_modification } rest
    else if cid = "toggle_backup" then
      runSerenityLicenseEditor
        { state with allow_backup := !state.allow_backup } rest
    else
      runSerenityLicenseEditor state rest
termination_by events => events.length
decreasing_by all_goals simp_arith [List.length_cons]

/-! ## `handlers/auto_publish.rs`: trigger deduplication -/

/-- The `PROCESSED_THREADS` cache: thread id paired with the `Instant`
(in monotonic seconds) at which the thread was marked processed.  A
`HashMap` is embedded as an association list whose lookups take the first
match and whose inserts prepend. -/
abbrev DedupCache := List (Nat × Nat)

/-- Source `HashMap::get` on the cache. -/
def cacheLookup (cache : DedupCache) (thread_id : Nat) : Option Nat :=
  (cache.find? (fun e => e.1 == thread_id)).map (fun e => e.2)

/-- The dedup block at the top of `handle_thread_create` (lines 26-47):
reject if the id was processed within the last 300 seconds, otherwise drop
expired entries and record the id at `now`.  `Instant` differences are
embedded as truncated `Nat` subtraction (instants are monotone, so the
subtraction never truncates in a real trace). -/
def dedupCheckAndRecord (cache : DedupCache) (thread_id : Nat) (now : Nat) :
    Bool × DedupCache :=
  match cacheLookup cache thread_id with
  | some processed_time =>
    if now - processed_time < 300 then (false, cache)
    else (true, (thread_id, now) :: cache.filter (fun e => now - e.2 < 300))
  | none =>
    (true, (thread_id, now) :: cache.filter (fun e => now - e.2 < 300))

/-! ## Handler inputs -/

/-- The fields of the triggering `GuildChannel` that the handlers consult.
`thread_metadata.create_timestamp` of the source is collapsed into one
`Option` (the freshness gate runs only when both options are `Some`). -/
structure ThreadInfo where
  id : Nat
  owner_id : Option Int
  create_timestamp : Option Int
deriving DecidableEq, Repr

/-- Ambient inputs of a handler run: wall-clock and monotonic time, the
configured bot start time, the system-license cache contents, and the
message id Discord assigns to a sent announcement. -/
structure FlowEnv where
  now : Int
  monotonic_now : Nat
  bot_start_time : Int
  system_licenses : List SystemLicense
  new_message_id : Int
deriving DecidableEq, Repr

/-- The environment's response at each wait point of the (non-editor) UI:
`none` is a timeout, `some cid` the button/selection the triggering user
chose.  A single run only reaches a subset of these wait points. -/
structure HandlerScript where
  panelResponse : Option String
  guidanceResponse : Option String
  selectionResponse : Option String
  editorEvents : List EditorEvent
  publishConfirmResponse : Option String
deriving DecidableEq, Repr

/-- Source `default_user_license_id` takes precedence over
`default_system_license_name` (lines 70-77 of the handler and 323-333 of
the flow). -/
def defaultLicenseOf (settings : UserSettings) :
    Option DefaultLicenseIdentifier :=
  match settings.default_user_license_id with
  | some user_license_id => some (.User user_license_id)
  | none =>
    match settings.default_system_license_name with
    | some system_license_name => some (.System system_license_name)
    | none => none

/-- Source `AutoPublishFlow::get_license_model` (identical to lines 80-104 of the
handler): resolve the default reference to a full license model, applying
the user's system-license backup override. -/
def get_license_model (db : BotDatabase) (owner_id : Int)
    (system_licenses : List SystemLicense) (settings : UserSettings)
    (license_id : DefaultLicenseIdentifier) (now : Int) :
    List Effect × Option UserLicense :=
  match license_id with
  | .User id =>
    ([.readLicense id owner_id], LicenseService.get_license db id owner_id)
  | .System name =>
    ([.readSystemLicenses],
     match system_licenses.find? (fun l => l.license_name == name) with
     | none => none
     | some sys_license =>
       let license := sys_license.to_user_license owner_id (-1) now
       some
         (match settings.default_system_license_backup with
          | some backup_override => { license with allow_backup := backup_override }
          | none => license))

/-! ## `handlers/auto_publish.rs`: the registered event handler -/

/-- Result of a `handle_thread_create` run. -/
structure HandlerResult where
  db : BotDatabase
  cache : DedupCache
  effects : List Effect
deriving DecidableEq, Repr

/-- Result of `handle_license_selection_flow`; `errored` is the `Err` return
that `handle_new_user_guidance` catches. -/
structure SelectionFlowResult where
  db : BotDatabase
  effects : List Effect
  errored : Bool
deriving DecidableEq, Repr

/-- Source `save_license_and_set_default` (handler version, lines 581-617): a
handler-level copy of the 5-license cap check, then `create`, then
`set_default_license`. -/
def save_license_and_set_default (db : BotDatabase) (owner_id : Int)
    (final_state : LicenseEditState) (now : Int) :
    Except String (UserLicense × BotDatabase) :=
  let (name, allow_redistribution, allow_modification, restrictions_note,
       allow_backup) := final_state.to_user_license_fields
  if LicenseService.get_user_license_count db owner_id ≥ 5 then
    .error "您最多只能创建5个协议，请先删除一些协议。"
  else
    match LicenseService.create db owner_id name allow_redistribution
        allow_modification restrictions_note allow_backup now with
    | .error e => .error e
    | .ok (license, db1) =>
      let db2 :=
        (UserSettingsService.set_default_license db1 owner_id
          (some (.User license.id))).2
      .ok (license, db2)

/-- Source `handle_publish_confirmation` (lines 448-578): confirmation followup for
a freshly created license, then publish/skip/timeout. -/
def handle_publish_confirmation (db : BotDatabase) (thread : ThreadInfo)
    (owner_id : Int) (env : FlowEnv) (script : HandlerScript)
    (license : UserLicense) : BotDatabase × List Effect :=
  let confirmEffects : List Effect := [.sendFollowup]
  match script.publishConfirmResponse with
  | none => (db, confirmEffects ++ [.deleteMessage, .sendFollowup])
  | some cid =>
    if cid = "confirm_publish_new_license" then
      let pub :=
        LicensePublishService.publish db (thread.id : Int) license
          license.allow_backup owner_id env.new_message_id env.now
      (pub.1,
       confirmEffects ++ pub.2 ++ [.sendEphemeral, .deleteMessage, .sendFollowup])
    else if cid = "skip_publish_new_license" then
      (db, confirmEffects ++ [.sendEphemeral, .deleteMessage, .sendFollowup])
    else (db, confirmEffects)

/-- The selection-to-draft step of `handle_license_selection_flow`
(lines 362-380): `"new_license"`, a `"system_"`-prefixed template name, or
an invalid value. -/
def selectionInitialState (selected : String)
    (system_licenses : List SystemLicense) : Except String LicenseEditState :=
  if selected = "new_license" then .ok (LicenseEditState.new "新协议")
  else if selected.startsWith "system_" then
    match system_licenses.find? (fun l => l.license_name == selected.drop 7) with
    | some system_license => .ok (.from_system_license system_license)
    | none => .error "选择的系统协议不存在"
  else .error "无效的选择"

/-- Source `handle_license_selection_flow` (lines 303-445): selection menu, draft
editor sub-session, then save-and-set-default and the publish confirmation
flow; a cancelled or timed-out editor only produces a followup notice. -/
def handle_license_selection_flow (db : BotDatabase) (thread : ThreadInfo)
    (owner_id : Int) (env : FlowEnv) (script : HandlerScript) :
    SelectionFlowResult :=
  let menuEffects : List Effect := [.readSystemLicenses, .sendSelectionMenu]
  match script.selectionResponse with
  | none => { db := db, effects := menuEffects, errored := false }
  | some selected =>
    match selectionInitialState selected env.system_licenses with
    | .error _ => { db := db, effects := menuEffects, errored := true }
    | .ok initial_state =>
      let outcome := runSerenityLicenseEditor initial_state script.editorEvents
      match outcome.state with
      | some final_state =>
        match save_license_and_set_default db owner_id final_state env.now with
        | .ok (license, db1) =>
          let pub :=
            handle_publish_confirmation db1 thread owner_id env script license
          { db := pub.1, effects := menuEffects ++ pub.2, errored := false }
        | .error _ =>
          { db := db, effects := menuEffects ++ [.sendFollowup], errored := false }
      | none =>
        { db := db, effects := menuEffects ++ [.sendFollowup], errored := false }

/-- Source `handle_new_user_guidance` (lines 213-300): guidance prompt, then
enable (persist flag, run the selection flow), disable (persist flag), or
timeout. -/
def handle_new_user_guidance (cache : DedupCache) (db : BotDatabase)
    (thread : ThreadInfo) (owner_id : Int) (env : FlowEnv)
    (script : HandlerScript) : HandlerResult :=
  let guidanceEffects : List Effect := [.sendGuidancePrompt]
  match script.guidanceResponse with
  | none =>
    { db := db, cache := cache, effects := guidanceEffects ++ [.deleteMessage] }
  | some cid =>
    if cid = "enable_auto_publish_setup" then
      let db1 := (UserSettingsService.set_auto_publish db owner_id true).2
      let sel := handle_license_selection_flow db1 thread owner_id env script
      let errEffects : List Effect := if sel.errored then [.sendEphemeral] else []
      { db := sel.db, cache := cache,
        effects := guidanceEffects ++ sel.effects ++ errEffects ++ [.deleteMessage] }
    else if cid = "disable_auto_publish_setup" then
      let db1 := (UserSettingsService.set_auto_publish db owner_id false).2
      { db := db1, cache := cache,
        effects := guidanceEffects ++ [.sendEphemeral, .deleteMessage] }
    else
      { db := db, cache := cache, effects := guidanceEffects }

/-- The body of `handle_thread_create` after the dedup block (lines 49-209):
read the user's settings and dispatch on them. -/
def autoPublishDispatch (cache : DedupCache) (db : BotDatabase)
    (thread : ThreadInfo) (owner_id : Int) (env : FlowEnv)
    (script : HandlerScript) : HandlerResult :=
  let readEffects : List Effect := [.readUserSettings owner_id]
  match UserSettingsService.get db owner_id with
  | none =>
    let r := handle_new_user_guidance cache db thread owner_id env script
    { r with effects := readEffects ++ r.effects }
  | some settings =>
    if !settings.auto_publish_enabled then
      { db := db, cache := cache, effects := readEffects }
    else
      match defaultLicenseOf settings with
      | none => { db := db, cache := cache, effects := readEffects }
      | some default_license_id =>
        let resolved :=
          get_license_model db owner_id env.system_licenses settings
            default_license_id env.now
        match resolved.2 with
        | none =>
          { db := db, cache := cache, effects := readEffects ++ resolved.1 }
        | some license_model =>
          if settings.skip_auto_publish_confirmation then
            let pub :=
              LicensePublishService.publish db (thread.id : Int) license_model
                license_model.allow_backup owner_id env.new_message_id env.now
            { db := pub.1, cache := cache,
              effects := readEffects ++ resolved.1 ++ pub.2 }
          else
            let panelEffects : List Effect := [.sendConfirmPanel]
            match script.panelResponse with
            | none =>
              { db := db, cache := cache,
                effects := readEffects ++ resolved.1 ++ panelEffects ++
                  [.deleteMessage] }
            | some cid =>
              if cid = "confirm_auto_publish" then
                let pub :=
                  LicensePublishService.publish db (thread.id : Int)
                    license_model license_model.allow_backup owner_id
                    env.new_message_id env.now
                { db := pub.1, cache := cache,
                  effects := readEffects ++ resolved.1 ++ panelEffects ++
                    pub.2 ++ [.deleteMessage, .sendEphemeral] }
              else if cid = "cancel_auto_publish" then
                { db := db, cache := cache,
                  effects := readEffects ++ resolved.1 ++ panelEffects ++
                    [.deleteMessage, .sendEphemeral] }
              else
                { db := db, cache := cache,
                  effects := readEffects ++ resolved.1 ++ panelEffects }

/-- Source `handle_thread_create` (lines 20-210): dedup gate, owner check, then the
settings dispatch.  A rejected duplicate returns before any read, send or
write. -/
def handle_thread_create (cache : DedupCache) (db : BotDatabase)
    (thread : ThreadInfo) (env : FlowEnv) (script : HandlerScript) :
    HandlerResult :=
  let dedup := dedupCheckAndRecord cache thread.id env.monotonic_now
  if !dedup.1 then { db := db, cache := cache, effects := [] }
  else
    match thread.owner_id with
    | none => { db := db, cache := dedup.2, effects := [] }
    | some owner_id => autoPublishDispatch dedup.2 db thread owner_id env script

/-! ## `handlers/auto_publish_flow.rs`: the state machine -/

/-- Source `FlowState`. -/
inductive FlowState where
  | Initial
  | AwaitingGuidance
  | EditingLicense (edit_state : LicenseEditState)
  | AwaitingLicenseReselection (system_licenses : List SystemLicense)
  | ConfirmingSave (license : UserLicense)
  | ConfirmingPublish (license : UserLicense)
  | Done
deriving DecidableEq, Repr

/-- Result of one state-handler step of the flow. -/
structure FlowStepResult where
  state : FlowState
  db : BotDatabase
  effects : List Effect
deriving DecidableEq, Repr

/-- The freshness gate of `handle_initial_state` (lines 275-304): a thread
is stale when its creation timestamp is known and either predates the bot
start or lies more than 300 seconds in the past. -/
def staleThread (thread : ThreadInfo) (env : FlowEnv) : Bool :=
  match thread.create_timestamp with
  | some create_timestamp =>
    create_timestamp < env.bot_start_time ||
      env.now - create_timestamp > 300
  | none => false

namespace AutoPublishFlow

/-- Source `AutoPublishFlow::handle_initial_state` (lines 274-359): freshness gate,
then the preference-driven dispatch into the next state. -/
def handle_initial_state (db : BotDatabase) (thread : ThreadInfo)
    (owner_id : Int) (env : FlowEnv) : FlowStepResult :=
  if staleThread thread env then
    { state := .Done, db := db, effects := [] }
  else
    let readEffects : List Effect := [.readUserSettings owner_id]
    match UserSettingsService.get db owner_id with
    | none =>
      { state := .AwaitingGuidance, db := db, effects := readEffects }
    | some settings =>
      if !settings.auto_publish_enabled then
        { state := .Done, db := db, effects := readEffects }
      else
        match defaultLicenseOf settings with
        | none => { state := .Done, db := db, effects := readEffects }
        | some default_license_id =>
          let resolved :=
            get_license_model db owner_id env.system_licenses settings
              default_license_id env.now
          match resolved.2 with
          | none =>
            { state := .Done, db := db, effects := readEffects ++ resolved.1 }
          | some license =>
            if settings.skip_auto_publish_confirmation then
              let pub :=
                LicensePublishService.publish db (thread.id : Int) license
                  license.allow_backup owner_id env.new_message_id env.now
              { state := .Done, db := pub.1,
                effects := readEffects ++ resolved.1 ++ pub.2 }
            else
              { state := .ConfirmingPublish license, db := db,
                effects := readEffects ++ resolved.1 ++ [.sendConfirmPanel] }

end AutoPublishFlow

/-! ## Concrete fixtures used by the witness theorems -/

/-- An empty store. -/
def emptyDb : BotDatabase := ⟨[], [], [], 1⟩

/-- A store in which user 7 already owns five licenses. -/
def capDb : BotDatabase :=
  ⟨[],
   [⟨1, 7, "L1", false, false, none, false, 0, 0⟩,
    ⟨2, 7, "L2", false, false, none, false, 0, 0⟩,
    ⟨3, 7, "L3", false, false, none, false, 0, 0⟩,
    ⟨4, 7, "L4", false, false, none, false, 0, 0⟩,
    ⟨5, 7, "L5", false, false, none, false, 0, 0⟩],
   [], 6⟩

/-- A license record owned by user 7. -/
def fixtureLicense : UserLicense :=
  ⟨1, 7, "L1", false, false, none, false, 0, 0⟩

/-- A store holding just `fixtureLicense`. -/
def oneLicenseDb : BotDatabase := ⟨[], [fixtureLicense], [], 2⟩

/-- A system license template used as an in-memory publish input. -/
def fixtureSystemLicense : SystemLicense := ⟨"CC", true, false, none, true⟩

/-- A fresh thread created by user 7. -/
def fixtureThread : ThreadInfo := ⟨42, some 7, some 1000⟩

/-- An environment whose clock sits at the thread creation instant. -/
def fixtureEnv : FlowEnv := ⟨1000, 50, 900, [fixtureSystemLicense], 500⟩

/-- A later environment, 50 monotonic seconds after `fixtureEnv`. -/
def fixtureEnv2 : FlowEnv := ⟨1000, 100, 900, [fixtureSystemLicense], 501⟩

/-- A script that answers no wait at all (every wait times out). -/
def silentScript : HandlerScript := ⟨none, none, none, [], none⟩

/-- A thread created before `fixtureEnv.bot_start_time`. -/
def staleFixtureThread : ThreadInfo := ⟨43, some 7, some 100⟩

/-- A store with one published post in thread 42 (`backup_allowed = true`). -/
def onePostDb : BotDatabase := ⟨[], [], [⟨42, 99, 7, true, 0⟩], 1⟩

/-- Settings for user 7 with auto-publish disabled. -/
def disabledSettings : UserSettings := ⟨7, false, false, none, none, none⟩

/-- Store holding only `disabledSettings`. -/
def disabledDb : BotDatabase := ⟨[disabledSettings], [], [], 1⟩

/-- Settings for user 7: enabled, skip confirmation, user license 1. -/
def skipSettings : UserSettings := ⟨7, true, true, some 1, none, none⟩

/-- Store with `skipSettings` and `fixtureLicense`. -/
def skipDb : BotDatabase := ⟨[skipSettings], [fixtureLicense], [], 2⟩

/-! ## The default-license exclusivity invariant -/

/-- At most one of the two default-license columns is set. -/
def settingsMutex (s : UserSettings) : Prop :=
  s.default_user_license_id = none ∨ s.default_system_license_name = none

instance (s : UserSettings) : Decidable (settingsMutex s) := by
  unfold settingsMutex; infer_instance

/-- Every settings row in the store satisfies `settingsMutex`. -/
def SettingsOk (db : BotDatabase) : Prop :=
  ∀ s ∈ db.user_settings, settingsMutex s

instance (db : BotDatabase) : Decidable (SettingsOk db) := by
  unfold SettingsOk; infer_instance

/-! ## Shared helper lemmas -/

/-- Source `find?` over a list with no match in the first part. -/
theorem find?_append_of_none {α : Type} (l₁ l₂ : List α) (p : α → Bool)
    (h : l₁.find? p = none) : (l₁ ++ l₂).find? p = l₂.find? p := by
  induction l₁ with
  | nil => simp
  | cons a t ih =>
    rw [List.find?_cons] at h
    cases hpa : p a with
    | true => simp [hpa] at h
    | false =>
      simp only [hpa] at h
      simpa [List.find?_cons, hpa] using ih h

/-- Source `find?` over a map that rewrites every match to the same row. -/
theorem find?_map_replace {α : Type} (l : List α) (p : α → Bool) (y : α)
    (hy : p y = true) (h : (l.find? p).isSome = true) :
    (l.map (fun x => if p x then y else x)).find? p = some y := by
  induction l with
  | nil => simp at h
  | cons a t ih =>
    cases hpa : p a with
    | true => simp [List.find?_cons, hpa, hy]
    | false =>
      rw [List.find?_cons] at h
      simp only [hpa] at h
      simpa [List.find?_cons, hpa] using ih h

/-- Source `find?` commutes with a map that preserves the predicate. -/
theorem find?_map_of_pred_inv {α : Type} (l : List α) (p : α → Bool)
    (f : α → α) (hp : ∀ x, p (f x) = p x) :
    (l.map f).find? p = (l.find? p).map f := by
  induction l with
  | nil => simp
  | cons a t ih =>
    cases hpa : p a with
    | true => simp [List.find?_cons, hp, hpa]
    | false => simpa [List.find?_cons, hp, hpa] using ih

/-! ## Claim theorems -/

/-- C2. For a user who already owns 5 or more license records,
`LicenseService::create` returns an error and inserts nothing, so the
owned-license count is unchanged by the failed call (no updated database is
produced at all); for a user owning fewer than 5, `create` inserts exactly
one record, with `usage_count = 0`, and returns it. -/
theorem C2_license_cap (db : BotDatabase) (user_id : Int)
    (license_name : String) (allow_redistribution allow_modification : Bool)
    (restrictions_note : Option String) (allow_backup : Bool) (now : Int) :
    (LicenseService.get_user_license_count db user_id ≥ 5 →
      ∃ e, LicenseService.create db user_id license_name allow_redistribution
        allow_modification restrictions_note allow_backup now = .error e) ∧
    (LicenseService.get_user_license_count db user_id < 5 →
      ∃ license db',
        LicenseService.create db user_id license_name allow_redistribution
          allow_modification restrictions_note allow_backup now =
            .ok (license, db') ∧
        license.usage_count = 0 ∧
        license.user_id = user_id ∧
        db'.user_licenses = db.user_licenses ++ [license] ∧
        LicenseService.get_user_license_count db' user_id =
          LicenseService.get_user_license_count db user_id + 1) := by
  constructor
  · intro hge
    unfold LicenseService.create
    rw [if_pos hge]
    exact ⟨_, rfl⟩
  · intro hlt
    unfold LicenseService.create
    rw [if_neg (by omega)]
    refine ⟨_, _, rfl, rfl, rfl, rfl, ?_⟩
    simp [LicenseService.get_user_license_count, List.filter_append]

/-- Witness for C2: with an empty store the user owns 0 licenses and a
create succeeds with usage count 0; with five pre-existing rows the sixth
create fails. -/
theorem C2_license_cap_witness :
    (LicenseService.get_user_license_count emptyDb 7 < 5 ∧
      ∃ license db',
        LicenseService.create emptyDb 7 "L" false false none false 0 =
          .ok (license, db') ∧
        license.usage_count = 0 ∧
        license.user_id = 7 ∧
        db'.user_licenses = emptyDb.user_licenses ++ [license] ∧
        LicenseService.get_user_license_count db' 7 =
          LicenseService.get_user_license_count emptyDb 7 + 1) ∧
    (LicenseService.get_user_license_count capDb 7 ≥ 5 ∧
      ∃ e, LicenseService.create capDb 7 "L6" false false none false 0 =
        .error e) := by
  constructor
  · exact ⟨by decide,
      (C2_license_cap emptyDb 7 "L" false false none false 0).2 (by decide)⟩
  · exact ⟨by decide,
      (C2_license_cap capDb 7 "L6" false false none false 0).1 (by decide)⟩

/-- C8. Before the user's preference record is read, the flow's initial
state checks the triggering thread's freshness: for any thread whose known
creation time predates the bot start or lies more than 300 seconds in the
past, the step ends in `Done` with an empty effect trace (no message, no
store read) and an unchanged store. -/
theorem C8_freshness_gate (db : BotDatabase) (thread : ThreadInfo)
    (owner_id : Int) (env : FlowEnv) (t : Int)
    (ht : thread.create_timestamp = some t)
    (hstale : t < env.bot_start_time ∨ env.now - t > 300) :
    AutoPublishFlow.handle_initial_state db thread owner_id env =
      { state := .Done, db := db, effects := [] } := by
  have hs : staleThread thread env = true := by
    simp only [staleThread, ht]
    rcases hstale with h | h <;> simp [h]
  simp [AutoPublishFlow.handle_initial_state, hs]

/-- Witness for C8: a thread created at time 100 against a bot started at
time 900 is dropped silently. -/
theorem C8_freshness_gate_witness :
    (staleFixtureThread.create_timestamp = some 100 ∧
      ((100 : Int) < fixtureEnv.bot_start_time ∨
        fixtureEnv.now - 100 > 300)) ∧
    AutoPublishFlow.handle_initial_state emptyDb staleFixtureThread 7
      fixtureEnv = { state := .Done, db := emptyDb, effects := [] } :=
  ⟨⟨rfl, by decide⟩,
   C8_freshness_gate emptyDb staleFixtureThread 7 fixtureEnv 100 rfl
     (by decide)⟩

/-- C10. Each of the three toggle actions of the editor core flips
exactly its own boolean field, leaves the draft's name, restrictions note
and the other two booleans unchanged, and applying the same toggle twice
restores the original draft. -/
theorem C10_toggle_involution (state : LicenseEditState) :
    (let s1 := (EditorCore.handleInteraction .toggle_redistribution state).1
     s1.allow_redistribution = !state.allow_redistribution ∧
     s1.license_name = state.license_name ∧
     s1.restrictions_note = state.restrictions_note ∧
     s1.allow_modification = state.allow_modification ∧
     s1.allow_backup = state.allow_backup ∧
     (EditorCore.handleInteraction .toggle_redistribution s1).1 = state) ∧
    (let s2 := (EditorCore.handleInteraction .toggle_modification state).1
     s2.allow_modification = !state.allow_modification ∧
     s2.license_name = state.license_name ∧
     s2.restrictions_note = state.restrictions_note ∧
     s2.allow_redistribution = state.allow_redistribution ∧
     s2.allow_backup = state.allow_backup ∧
     (EditorCore.handleInteraction .toggle_modification s2).1 = state) ∧
    (let s3 := (EditorCore.handleInteraction .toggle_backup state).1
     s3.allow_backup = !state.allow_backup ∧
     s3.license_name = state.license_name ∧
     s3.restrictions_note = state.restrictions_note ∧
     s3.allow_redistribution = state.allow_redistribution ∧
     s3.allow_modification = state.allow_modification ∧
     (EditorCore.handleInteraction .toggle_backup s3).1 = state) := by
  cases state
  simp [EditorCore.handleInteraction]

/-- The row fetched (or freshly defaulted) by `get_or_create` satisfies the
exclusivity invariant whenever the store does. -/
theorem get_or_create_fst_mutex (db : BotDatabase) (user_id : Int)
    (hok : SettingsOk db) :
    settingsMutex (UserSettingsService.get_or_create db user_id).1 := by
  unfold UserSettingsService.get_or_create
  cases hfind : UserSettingsService.get db user_id with
  | some s =>
    exact hok s (List.mem_of_find?_eq_some hfind)
  | none => exact Or.inl rfl

/-- Source `get_or_create` preserves the store-wide invariant. -/
theorem SettingsOk_get_or_create (db : BotDatabase) (user_id : Int)
    (hok : SettingsOk db) :
    SettingsOk (UserSettingsService.get_or_create db user_id).2 := by
  unfold UserSettingsService.get_or_create
  cases hfind : UserSettingsService.get db user_id with
  | some s => exact hok
  | none =>
    intro s hs
    simp only [List.mem_append, List.mem_singleton] at hs
    rcases hs with h | rfl
    · exact hok s h
    · exact Or.inl rfl

/-- Replacing the row keyed by `user_id` with an invariant-respecting row
preserves the store-wide invariant. -/
theorem SettingsOk_updateRow (db : BotDatabase) (user_id : Int)
    (s' : UserSettings) (hok : SettingsOk db) (hs' : settingsMutex s') :
    SettingsOk (UserSettingsService.updateRow db user_id s') := by
  intro s hs
  simp only [UserSettingsService.updateRow] at hs
  rcases List.mem_map.mp hs with ⟨a, ha, hEq⟩
  subst hEq
  cases hcond : (a.user_id == user_id) with
  | true => simpa [hcond] using hs'
  | false => simpa [hcond] using hok a ha

/-- C7. After any call to `UserSettingsService::set_default_license` —
with a user-owned id, a system-template name, or `None` — at most one of
`default_user_license_id` and `default_system_license_name` is set, and
this exclusivity is preserved by every settings operation of the service. -/
theorem C7_default_license_exclusive (db : BotDatabase) (user_id : Int)
    (license : Option DefaultLicenseIdentifier) (enabled : Bool)
    (auto_publish_enabled : Option Bool)
    (default_license : Option (Option DefaultLicenseIdentifier))
    (hok : SettingsOk db) :
    settingsMutex (UserSettingsService.set_default_license db user_id license).1 ∧
    SettingsOk (UserSettingsService.set_default_license db user_id license).2 ∧
    SettingsOk (UserSettingsService.get_or_create db user_id).2 ∧
    SettingsOk (UserSettingsService.set_auto_publish db user_id enabled).2 ∧
    SettingsOk (UserSettingsService.toggle_auto_publish db user_id).2 ∧
    SettingsOk (UserSettingsService.clear_default_license db user_id).2 ∧
    SettingsOk
      (UserSettingsService.update_settings db user_id auto_publish_enabled
        default_license).2 ∧
    SettingsOk (UserSettingsService.delete db user_id).2 := by
  have hfst := get_or_create_fst_mutex db user_id hok
  have hsnd := SettingsOk_get_or_create db user_id hok
  have hset :
      settingsMutex (UserSettingsService.set_default_license db user_id license).1 := by
    unfold UserSettingsService.set_default_license
    cases license with
    | none => exact Or.inl rfl
    | some dli =>
      cases dli with
      | User id => exact Or.inr rfl
      | System name => exact Or.inl rfl
  refine ⟨hset, ?_, hsnd, ?_, ?_, ?_, ?_, ?_⟩
  · exact SettingsOk_updateRow _ _ _ hsnd hset
  · exact SettingsOk_updateRow _ _ _ hsnd hfst
  · exact SettingsOk_updateRow _ _ _ hsnd hfst
  · -- clear_default_license delegates to set_default_license with None
    exact SettingsOk_updateRow _ _ _ hsnd (Or.inl rfl)
  · -- update_settings: the optional flag update keeps both license columns,
    -- and the optional license update forces one of them to None
    have hs2 :
        settingsMutex
          (UserSettingsService.update_settings db user_id
            auto_publish_enabled default_license).1 := by
      unfold UserSettingsService.update_settings
      cases default_license with
      | none =>
        cases auto_publish_enabled with
        | none => exact hfst
        | some e => exact hfst
      | some l =>
        cases l with
        | none => exact Or.inl rfl
        | some dli =>
          cases dli with
          | User id => exact Or.inr rfl
          | System name => exact Or.inl rfl
    exact SettingsOk_updateRow _ _ _ hsnd hs2
  · intro s hs
    exact hok s (List.mem_of_mem_filter hs)

/-- After the upsert, the thread's record exists and carries the just
written `backup_allowed` value. -/
theorem get_by_thread_record_or_update (db : BotDatabase)
    (thread_id message_id user_id : Int) (b : Bool) (now : Int) :
    PublishedPostsService.get_by_thread
      (PublishedPostsService.record_or_update db thread_id message_id
        user_id b now).2 thread_id =
      some (PublishedPostsService.record_or_update db thread_id message_id
        user_id b now).1 ∧
    (PublishedPostsService.record_or_update db thread_id message_id
      user_id b now).1.backup_allowed = b := by
  unfold PublishedPostsService.record_or_update PublishedPostsService.update
    PublishedPostsService.record
  cases hfind : PublishedPostsService.get_by_thread db thread_id with
  | some post =>
    have hfind' :
        db.published_posts.find? (fun p => p.thread_id == thread_id) =
          some post := hfind
    have hpred : (post.thread_id == thread_id) = true := by
      simpa using List.find?_some hfind'
    constructor
    · refine find?_map_replace _ _ _ ?_ ?_
      · simpa using hpred
      · unfold PublishedPostsService.get_by_thread at hfind
        simp [hfind]
    · rfl
  | none =>
    constructor
    · unfold PublishedPostsService.get_by_thread at hfind ⊢
      rw [find?_append_of_none _ _ _ hfind]
      simp [List.find?_cons]
    · rfl

/-- Notification count of one `publish` run: exactly one notification when
the pre-upsert change predicate holds, none otherwise. -/
theorem countNotifications_publish (db : BotDatabase) (thread_id : Int)
    (license : UserLicense) (b : Bool) (author_id new_message_id now : Int) :
    countNotifications
      (LicensePublishService.publish db thread_id license b author_id
        new_message_id now).2 =
      if PublishedPostsService.has_backup_permission_changed db thread_id b
      then 1 else 0 := by
  unfold LicensePublishService.publish
  cases hfind : PublishedPostsService.get_by_thread db thread_id <;>
    cases hch : PublishedPostsService.has_backup_permission_changed db
        thread_id b <;>
      simp [hfind, hch, countNotifications, Effect.isNotification,
        List.filter_append]

/-- The upsert leaves the license table untouched. -/
theorem record_or_update_user_licenses (db : BotDatabase)
    (thread_id message_id user_id : Int) (b : Bool) (now : Int) :
    (PublishedPostsService.record_or_update db thread_id message_id user_id b
      now).2.user_licenses = db.user_licenses := by
  unfold PublishedPostsService.record_or_update PublishedPostsService.update
    PublishedPostsService.record
  cases hfind : PublishedPostsService.get_by_thread db thread_id <;> simp

/-- The license table after `publish` is the increment-usage image of the
input table. -/
theorem publish_user_licenses (db : BotDatabase) (thread_id : Int)
    (license : UserLicense) (b : Bool) (author_id new_message_id now : Int) :
    (LicensePublishService.publish db thread_id license b author_id
      new_message_id now).1.user_licenses =
      db.user_licenses.map (fun l =>
        if l.id == license.id && l.user_id == author_id then
          { l with usage_count := l.usage_count + 1 }
        else l) := by
  unfold LicensePublishService.publish LicenseService.increment_usage
  simp [record_or_update_user_licenses]

/-- Every `publish` run sends exactly one announcement message. -/
theorem countAnnouncements_publish (db : BotDatabase) (thread_id : Int)
    (license : UserLicense) (b : Bool) (author_id new_message_id now : Int) :
    countAnnouncements
      (LicensePublishService.publish db thread_id license b author_id
        new_message_id now).2 = 1 := by
  unfold LicensePublishService.publish
  cases hfind : PublishedPostsService.get_by_thread db thread_id <;>
    cases hch : PublishedPostsService.has_backup_permission_changed db
        thread_id b <;>
      simp [hfind, hch, countAnnouncements, Effect.isAnnouncement,
        List.filter_append]

/-- Source `publish` never emits a workflow prompt. -/
theorem publish_no_prompt (db : BotDatabase) (thread_id : Int)
    (license : UserLicense) (b : Bool) (author_id new_message_id now : Int) :
    ∀ e ∈ (LicensePublishService.publish db thread_id license b author_id
      new_message_id now).2, e.isPrompt = false := by
  unfold LicensePublishService.publish
  cases hfind : PublishedPostsService.get_by_thread db thread_id <;>
    cases hch : PublishedPostsService.has_backup_permission_changed db
        thread_id b <;>
      simp [hfind, hch, Effect.isPrompt]

/-- C3. `has_backup_permission_changed(thread, new)` returns
`prior != new` when the thread has a record and `new` itself when it has
none; `publish` fires a notification iff this predicate holds on the
pre-publish record, so a second publish into the same thread fires exactly
one notification when its `backupAllowed` differs from the first's and none
when it is the same. -/
theorem C3_backup_change (db : BotDatabase) (thread_id : Int)
    (new_backup : Bool) (license license2 : UserLicense) (b1 b2 : Bool)
    (author author2 mid mid2 now now2 : Int) :
    (∀ post, PublishedPostsService.get_by_thread db thread_id = some post →
      PublishedPostsService.has_backup_permission_changed db thread_id
          new_backup =
        (post.backup_allowed != new_backup)) ∧
    (PublishedPostsService.get_by_thread db thread_id = none →
      PublishedPostsService.has_backup_permission_changed db thread_id
          new_backup = new_backup) ∧
    (countNotifications
        (LicensePublishService.publish db thread_id license b1 author mid
          now).2 =
      if PublishedPostsService.has_backup_permission_changed db thread_id b1
      then 1 else 0) ∧
    (countNotifications
        (LicensePublishService.publish
          (LicensePublishService.publish db thread_id license b1 author mid
            now).1
          thread_id license2 b2 author2 mid2 now2).2 =
      if b2 != b1 then 1 else 0) := by
  refine ⟨?_, ?_, countNotifications_publish db thread_id license b1 author
    mid now, ?_⟩
  · intro post hpost
    simp [PublishedPostsService.has_backup_permission_changed, hpost]
  · intro hnone
    simp [PublishedPostsService.has_backup_permission_changed, hnone]
  · have hup := get_by_thread_record_or_update db thread_id mid author b1 now
    rw [countNotifications_publish]
    have hget :
        PublishedPostsService.get_by_thread
          (LicensePublishService.publish db thread_id license b1 author mid
            now).1 thread_id =
        some (PublishedPostsService.record_or_update db thread_id mid author
          b1 now).1 := hup.1
    simp only [PublishedPostsService.has_backup_permission_changed, hget,
      hup.2]
    cases b1 <;> cases b2 <;> rfl

/-- Witness for C3: against the one-post store, a `false` publish differs
from the recorded `true`; and a first `true` publish followed by a `false`
publish fires exactly one notification in the second run. -/
theorem C3_backup_change_witness :
    (PublishedPostsService.get_by_thread onePostDb 42 =
        some ⟨42, 99, 7, true, 0⟩ ∧
      PublishedPostsService.has_backup_permission_changed onePostDb 42 false =
        (true != false)) ∧
    countNotifications
        (LicensePublishService.publish
          (LicensePublishService.publish emptyDb 42 fixtureLicense true 7 100
            0).1
          42 fixtureLicense false 7 101 1).2 =
      (if false != true then 1 else 0) :=
  ⟨⟨by decide,
    (C3_backup_change onePostDb 42 false fixtureLicense fixtureLicense true
        false 7 7 100 101 0 1).1 ⟨42, 99, 7, true, 0⟩ (by decide)⟩,
   (C3_backup_change emptyDb 42 false fixtureLicense fixtureLicense true
      false 7 7 100 101 0 1).2.2.2⟩

/-- Witness for C7: a store holding a row with a system default satisfies
the invariant, and the conclusion holds there for a `User` assignment. -/
theorem C7_default_license_exclusive_witness :
    SettingsOk ⟨[⟨7, true, false, none, some "CC", none⟩], [], [], 1⟩ ∧
    settingsMutex
      (UserSettingsService.set_default_license
        ⟨[⟨7, true, false, none, some "CC", none⟩], [], [], 1⟩ 7
        (some (.User 3))).1 :=
  ⟨by decide,
   (C7_default_license_exclusive
      ⟨[⟨7, true, false, none, some "CC", none⟩], [], [], 1⟩ 7
      (some (.User 3)) true none none (by decide)).1⟩

/-- Source `handle_new_user_guidance` never touches the dedup cache. -/
theorem handle_new_user_guidance_cache (cache : DedupCache)
    (db : BotDatabase) (thread : ThreadInfo) (owner_id : Int) (env : FlowEnv)
    (script : HandlerScript) :
    (handle_new_user_guidance cache db thread owner_id env script).cache =
      cache := by
  unfold handle_new_user_guidance
  dsimp only
  repeat' split
  all_goals rfl

/-- Source `autoPublishDispatch` never touches the dedup cache. -/
theorem autoPublishDispatch_cache (cache : DedupCache) (db : BotDatabase)
    (thread : ThreadInfo) (owner_id : Int) (env : FlowEnv)
    (script : HandlerScript) :
    (autoPublishDispatch cache db thread owner_id env script).cache =
      cache := by
  unfold autoPublishDispatch
  dsimp only
  repeat' split
  all_goals simp [handle_new_user_guidance_cache]

/-- After an admission, the cache maps the admitted key to `now`. -/
theorem cacheLookup_after_admit (cache : DedupCache) (thread_id now : Nat)
    (h : (dedupCheckAndRecord cache thread_id now).1 = true) :
    cacheLookup (dedupCheckAndRecord cache thread_id now).2 thread_id =
      some now := by
  unfold dedupCheckAndRecord at h ⊢
  cases hl : cacheLookup cache thread_id with
  | none => simp [hl, cacheLookup, List.find?_cons]
  | some t =>
    simp only [hl] at h ⊢
    by_cases hwin : now - t < 300
    · simp [hwin] at h
    · simp [hwin, cacheLookup, List.find?_cons]

/-- A duplicate trigger inside the window is dropped with no effect at all:
no store read or write, no message, an unchanged cache. -/
theorem handle_thread_create_rejected (cache : DedupCache)
    (db : BotDatabase) (thread : ThreadInfo) (env : FlowEnv)
    (script : HandlerScript) (t : Nat)
    (hl : cacheLookup cache thread.id = some t)
    (hwin : env.monotonic_now - t < 300) :
    handle_thread_create cache db thread env script =
      { db := db, cache := cache, effects := [] } := by
  unfold handle_thread_create dedupCheckAndRecord
  rw [hl]
  simp [hwin]

/-- An admitted trigger leaves the cache produced by the dedup block. -/
theorem handle_thread_create_cache_admitted (cache : DedupCache)
    (db : BotDatabase) (thread : ThreadInfo) (env : FlowEnv)
    (script : HandlerScript)
    (h : (dedupCheckAndRecord cache thread.id env.monotonic_now).1 = true) :
    (handle_thread_create cache db thread env script).cache =
      (dedupCheckAndRecord cache thread.id env.monotonic_now).2 := by
  cases howner : thread.owner_id with
  | none => simp [handle_thread_create, h, howner]
  | some owner_id =>
    simp [handle_thread_create, h, howner, autoPublishDispatch_cache]

/-- C5. The deduplicator admits a thread id iff the cache holds no
entry for it recorded within the last 300 seconds, and records the id at
the current instant on admission; consequently, when a second trigger for
the same id arrives within 300 seconds of an admitted first trigger, the
second `handle_thread_create` run returns before any preference read,
message send or store write — with an empty effect trace and both store
and cache unchanged. -/
theorem C5_dedup_gate (cache : DedupCache) (db db2 : BotDatabase)
    (thread thread2 : ThreadInfo) (env env2 : FlowEnv)
    (script script2 : HandlerScript) (thread_id now : Nat) :
    ((dedupCheckAndRecord cache thread_id now).1 = true ↔
      ∀ t, cacheLookup cache thread_id = some t → ¬(now - t < 300)) ∧
    ((dedupCheckAndRecord cache thread_id now).1 = true →
      cacheLookup (dedupCheckAndRecord cache thread_id now).2 thread_id =
        some now) ∧
    (∀ t, cacheLookup cache thread.id = some t →
      env.monotonic_now - t < 300 →
      handle_thread_create cache db thread env script =
        { db := db, cache := cache, effects := [] }) ∧
    ((dedupCheckAndRecord cache thread.id env.monotonic_now).1 = true →
      thread2.id = thread.id →
      env2.monotonic_now - env.monotonic_now < 300 →
      handle_thread_create
        (handle_thread_create cache db thread env script).cache db2 thread2
        env2 script2 =
        { db := db2,
          cache := (handle_thread_create cache db thread env script).cache,
          effects := [] }) := by
  refine ⟨?_, cacheLookup_after_admit cache thread_id now,
    fun t hl hwin => handle_thread_create_rejected cache db thread env
      script t hl hwin, ?_⟩
  · unfold dedupCheckAndRecord
    cases hl : cacheLookup cache thread_id with
    | none => simp
    | some t =>
      by_cases hwin : now - t < 300
      · simp only [hwin, if_true]
        constructor
        · intro hfalse
          exact absurd hfalse (by simp)
        · intro hall
          exact absurd hwin (hall t rfl)
      · simp only [hwin, if_false]
        constructor
        · intro _ t' ht'
          cases ht'
          exact hwin
        · intro _
          trivial
  · intro hadmit hid hwin
    have hcache := handle_thread_create_cache_admitted cache db thread env
      script hadmit
    have hlook :
        cacheLookup (handle_thread_create cache db thread env script).cache
          thread2.id = some env.monotonic_now := by
      rw [hcache, hid]
      exact cacheLookup_after_admit cache thread.id env.monotonic_now hadmit
    exact handle_thread_create_rejected _ db2 thread2 env2 script2
      env.monotonic_now hlook hwin

/-- Witness for C5: thread 42 is admitted at monotonic instant 50; a
duplicate arriving at instant 100 (inside the 300-second window) is
dropped with an empty trace. -/
theorem C5_dedup_gate_witness :
    ((dedupCheckAndRecord [] fixtureThread.id fixtureEnv.monotonic_now).1 =
        true ∧
      fixtureEnv2.monotonic_now - fixtureEnv.monotonic_now < 300) ∧
    handle_thread_create
      (handle_thread_create [] skipDb fixtureThread fixtureEnv
        silentScript).cache
      skipDb fixtureThread fixtureEnv2 silentScript =
      { db := skipDb,
        cache := (handle_thread_create [] skipDb fixtureThread fixtureEnv
          silentScript).cache,
        effects := [] } :=
  ⟨⟨by decide, by decide⟩,
   (C5_dedup_gate [] skipDb skipDb fixtureThread fixtureThread fixtureEnv
      fixtureEnv2 silentScript silentScript 42 50).2.2.2 (by decide) rfl
      (by decide)⟩

/-- C4, counterexample. A successful publish (it sends its one
announcement) of a system-template license — which `to_user_license`
materialises with the sentinel id `-1` that matches no stored record —
leaves every stored `usage_count` unchanged, so the claim that *every*
successful publish increments the published license's usage count by
exactly 1 fails at this input. -/
theorem C4_counterexample :
    countAnnouncements
      (LicensePublishService.publish oneLicenseDb 42
        (fixtureSystemLicense.to_user_license 7 (-1) 0) true 7 100 0).2 = 1 ∧
    (LicensePublishService.publish oneLicenseDb 42
      (fixtureSystemLicense.to_user_license 7 (-1) 0) true 7 100
      0).1.user_licenses = oneLicenseDb.user_licenses := by
  decide

/-- C4, amended. Every `publish` run sends exactly one announcement;
when the published license is backed by a stored record with its id owned
by the author, that record's `usage_count` is incremented by exactly 1,
and every record not matching the published license's `(id, author)` pair
is carried over unchanged. -/
theorem C4_publish_usage (db : BotDatabase) (thread_id : Int)
    (license : UserLicense) (b : Bool) (author_id new_message_id now : Int)
    (prior : UserLicense)
    (hprior : LicenseService.get_license db license.id author_id =
      some prior) :
    countAnnouncements
      (LicensePublishService.publish db thread_id license b author_id
        new_message_id now).2 = 1 ∧
    LicenseService.get_license
      (LicensePublishService.publish db thread_id license b author_id
        new_message_id now).1 license.id author_id =
      some { prior with usage_count := prior.usage_count + 1 } ∧
    (∀ l : UserLicense, ¬(l.id = license.id ∧ l.user_id = author_id) →
      (l ∈ db.user_licenses ↔
        l ∈ (LicensePublishService.publish db thread_id license b author_id
          new_message_id now).1.user_licenses)) := by
  have hfind :
      db.user_licenses.find?
        (fun l => l.id == license.id && l.user_id == author_id) =
        some prior := hprior
  have hpp : (prior.id == license.id && prior.user_id == author_id) = true := by
    simpa using List.find?_some hfind
  have hpinv : ∀ x : UserLicense,
      (((fun l => if l.id == license.id && l.user_id == author_id then
          { l with usage_count := l.usage_count + 1 } else l) x).id ==
            license.id &&
        ((fun l => if l.id == license.id && l.user_id == author_id then
          { l with usage_count := l.usage_count + 1 } else l) x).user_id ==
            author_id) =
      (x.id == license.id && x.user_id == author_id) := by
    intro x
    cases hx : (x.id == license.id && x.user_id == author_id) <;> simp [hx]
  refine ⟨countAnnouncements_publish db thread_id license b author_id
    new_message_id now, ?_, ?_⟩
  · show ((LicensePublishService.publish db thread_id license b author_id
      new_message_id now).1.user_licenses.find?
        (fun l => l.id == license.id && l.user_id == author_id)) = _
    rw [publish_user_licenses,
      find?_map_of_pred_inv _ _ _ hpinv, hfind]
    simp only [Option.map_some']
    rw [if_pos hpp]
  · intro l hnm
    have hpl : (l.id == license.id && l.user_id == author_id) = false := by
      cases hpl : (l.id == license.id && l.user_id == author_id) with
      | true => exact absurd (by simpa using hpl) hnm
      | false => rfl
    rw [publish_user_licenses]
    constructor
    · intro hl
      exact List.mem_map.mpr ⟨l, hl, by simp [hpl]⟩
    · intro hl
      rcases List.mem_map.mp hl with ⟨a, ha, hfa⟩
      cases hpa : (a.id == license.id && a.user_id == author_id) with
      | false =>
        rw [← hfa]
        simpa [hpa] using ha
      | true =>
        exfalso
        apply hnm
        have hla : l = { a with usage_count := a.usage_count + 1 } := by
          rw [← hfa]; simp [hpa]
        have hpa' : a.id = license.id ∧ a.user_id = author_id := by
          simpa using hpa
        rw [hla]
        exact ⟨hpa'.1, hpa'.2⟩

/-- Announcement counting distributes over concatenation. -/
theorem countAnnouncements_append (l₁ l₂ : List Effect) :
    countAnnouncements (l₁ ++ l₂) =
      countAnnouncements l₁ + countAnnouncements l₂ := by
  simp [countAnnouncements, List.filter_append]

/-- License resolution only performs reads: its trace holds no prompt, no
announcement and no notification. -/
theorem get_license_model_effects (db : BotDatabase) (owner_id : Int)
    (system_licenses : List SystemLicense) (settings : UserSettings)
    (dli : DefaultLicenseIdentifier) (now : Int) :
    ∀ e ∈ (get_license_model db owner_id system_licenses settings dli
      now).1,
      e.isPrompt = false ∧ e.isAnnouncement = false := by
  cases dli <;>
    simp [get_license_model, Effect.isPrompt, Effect.isAnnouncement]

/-- The guidance handler's first effect is the guidance prompt. -/
theorem handle_new_user_guidance_effects_head (cache : DedupCache)
    (db : BotDatabase) (thread : ThreadInfo) (owner_id : Int) (env : FlowEnv)
    (script : HandlerScript) :
    (handle_new_user_guidance cache db thread owner_id env
      script).effects.take 1 = [Effect.sendGuidancePrompt] := by
  unfold handle_new_user_guidance
  dsimp only
  repeat' split
  all_goals rfl

/-! Step lemmas for the editor loop (one per wait outcome). -/

theorem runEditor_modal (s : LicenseEditState) (v : String)
    (rest : List EditorEvent) :
    runSerenityLicenseEditor s (.modalSubmit v :: rest) =
      runSerenityLicenseEditor s rest := by
  rw [runSerenityLicenseEditor.eq_def]
  try rfl

theorem runEditor_save (s : LicenseEditState) (rest : List EditorEvent) :
    runSerenityLicenseEditor s (.component "save_license" :: rest) =
      { state := some s, exit := .saved, trailingWait := 0,
        cleanedUp := true } := by
  rw [runSerenityLicenseEditor.eq_def]
  try rfl

theorem runEditor_cancel (s : LicenseEditState) (rest : List EditorEvent) :
    runSerenityLicenseEditor s (.component "cancel_license" :: rest) =
      { state := none, exit := .cancelled, trailingWait := 0,
        cleanedUp := true } := by
  rw [runSerenityLicenseEditor.eq_def]
  try rfl

theorem runEditor_edit_name_modal (s : LicenseEditState) (v : String)
    (rest : List EditorEvent) :
    runSerenityLicenseEditor s
        (.component "edit_name" :: .modalSubmit v :: rest) =
      runSerenityLicenseEditor { s with license_name := v } rest := by
  rw [runSerenityLicenseEditor.eq_def]
  try rfl

theorem runEditor_edit_name_nil (s : LicenseEditState) :
    runSerenityLicenseEditor s [.component "edit_name"] =
      { state := none, exit := .timedOut, trailingWait := 600,
        cleanedUp := true } := by
  rw [runSerenityLicenseEditor.eq_def]
  simp [runSerenityLicenseEditor.eq_1]

theorem runEditor_edit_name_comp (s : LicenseEditState) (c : String)
    (rest : List EditorEvent) :
    runSerenityLicenseEditor s
        (.component "edit_name" :: .component c :: rest) =
      runSerenityLicenseEditor s (.component c :: rest) := by
  rw [runSerenityLicenseEditor.eq_def]
  try rfl

theorem runEditor_edit_restrictions_modal (s : LicenseEditState) (v : String)
    (rest : List EditorEvent) :
    runSerenityLicenseEditor s
        (.component "edit_restrictions" :: .modalSubmit v :: rest) =
      runSerenityLicenseEditor { s with restrictions_note := trimOrNone v }
        rest := by
  rw [runSerenityLicenseEditor.eq_def]
  try rfl

theorem runEditor_edit_restrictions_nil (s : LicenseEditState) :
    runSerenityLicenseEditor s [.component "edit_restrictions"] =
      { state := none, exit := .timedOut, trailingWait := 600,
        cleanedUp := true } := by
  rw [runSerenityLicenseEditor.eq_def]
  simp [runSerenityLicenseEditor.eq_1]

theorem runEditor_edit_restrictions_comp (s : LicenseEditState) (c : String)
    (rest : List EditorEvent) :
    runSerenityLicenseEditor s
        (.component "edit_restrictions" :: .component c :: rest) =
      runSerenityLicenseEditor s (.component c :: rest) := by
  rw [runSerenityLicenseEditor.eq_def]
  try rfl

theorem runEditor_toggle_redistribution (s : LicenseEditState)
    (rest : List EditorEvent) :
    runSerenityLicenseEditor s (.component "toggle_redistribution" :: rest) =
      runSerenityLicenseEditor
        { s with allow_redistribution := !s.allow_redistribution } rest := by
  rw [runSerenityLicenseEditor.eq_def]
  try rfl

theorem runEditor_toggle_modification (s : LicenseEditState)
    (rest : List EditorEvent) :
    runSerenityLicenseEditor s (.component "toggle_modification" :: rest) =
      runSerenityLicenseEditor
        { s with allow_modification := !s.allow_modification } rest := by
  rw [runSerenityLicenseEditor.eq_def]
  try rfl

theorem runEditor_toggle_backup (s : LicenseEditState)
    (rest : List EditorEvent) :
    runSerenityLicenseEditor s (.component "toggle_backup" :: rest) =
      runSerenityLicenseEditor { s with allow_backup := !s.allow_backup }
        rest := by
  rw [runSerenityLicenseEditor.eq_def]
  try rfl

theorem runEditor_unknown (s : LicenseEditState) (cid : String)
    (rest : List EditorEvent)
    (h1 : ¬cid = "save_license") (h2 : ¬cid = "cancel_license")
    (h3 : ¬cid = "edit_name") (h4 : ¬cid = "edit_restrictions")
    (h5 : ¬cid = "toggle_redistribution") (h6 : ¬cid = "toggle_modification")
    (h7 : ¬cid = "toggle_backup") :
    runSerenityLicenseEditor s (.component cid :: rest) =
      runSerenityLicenseEditor s rest := by
  rw [runSerenityLicenseEditor.eq_def]
  simp [h1, h2, h3, h4, h5, h6, h7]

/-- The editor returns a draft iff its exit was the save action. -/
theorem runEditor_saved_iff (s : LicenseEditState)
    (events : List EditorEvent) :
    ((runSerenityLicenseEditor s events).state.isSome = true ↔
      (runSerenityLicenseEditor s events).exit = .saved) := by
  induction s, events using runSerenityLicenseEditor.induct
  all_goals try simp_all [runSerenityLicenseEditor.eq_1, runEditor_modal,
    runEditor_save, runEditor_cancel, runEditor_edit_name_modal,
    runEditor_edit_name_nil, runEditor_edit_restrictions_modal,
    runEditor_edit_restrictions_nil, runEditor_toggle_redistribution,
    runEditor_toggle_modification, runEditor_toggle_backup,
    runEditor_unknown]
  case case7 state other hnm hne ih =>
    cases other with
    | nil => exact absurd rfl hne
    | cons e rest =>
      cases e with
      | modalSubmit v => exact absurd rfl (hnm v rest)
      | component c =>
        rw [runEditor_edit_name_comp]
        exact ih
  case case10 state other hnm hne ih =>
    cases other with
    | nil => exact absurd rfl hne
    | cons e rest =>
      cases e with
      | modalSubmit v => exact absurd rfl (hnm v rest)
      | component c =>
        rw [runEditor_edit_restrictions_comp]
        exact ih

/-- Every exit path of the editor cleans up its UI. -/
theorem runEditor_cleanedUp (s : LicenseEditState)
    (events : List EditorEvent) :
    (runSerenityLicenseEditor s events).cleanedUp = true := by
  induction s, events using runSerenityLicenseEditor.induct
  all_goals try simp_all [runSerenityLicenseEditor.eq_1, runEditor_modal,
    runEditor_save, runEditor_cancel, runEditor_edit_name_modal,
    runEditor_edit_name_nil, runEditor_edit_restrictions_modal,
    runEditor_edit_restrictions_nil, runEditor_toggle_redistribution,
    runEditor_toggle_modification, runEditor_toggle_backup,
    runEditor_unknown]
  case case7 state other hnm hne ih =>
    cases other with
    | nil => exact absurd rfl hne
    | cons e rest =>
      cases e with
      | modalSubmit v => exact absurd rfl (hnm v rest)
      | component c =>
        rw [runEditor_edit_name_comp]
        exact ih
  case case10 state other hnm hne ih =>
    cases other with
    | nil => exact absurd rfl hne
    | cons e rest =>
      cases e with
      | modalSubmit v => exact absurd rfl (hnm v rest)
      | component c =>
        rw [runEditor_edit_restrictions_comp]
        exact ih

/-- Inactivity bound of the editor: once the event script is exhausted, at
most 600 further seconds are spent waiting (one 300-second modal wait plus
one 300-second component wait), and a session that waited at all past its
last event returns no draft. -/
theorem runEditor_trailing (s : LicenseEditState)
    (events : List EditorEvent) :
    (runSerenityLicenseEditor s events).trailingWait ≤ 600 ∧
    (0 < (runSerenityLicenseEditor s events).trailingWait →
      (runSerenityLicenseEditor s events).state = none) := by
  induction s, events using runSerenityLicenseEditor.induct
  all_goals try simp_all [runSerenityLicenseEditor.eq_1, runEditor_modal,
    runEditor_save, runEditor_cancel, runEditor_edit_name_modal,
    runEditor_edit_name_nil, runEditor_edit_restrictions_modal,
    runEditor_edit_restrictions_nil, runEditor_toggle_redistribution,
    runEditor_toggle_modification, runEditor_toggle_backup,
    runEditor_unknown]
  case case7 state other hnm hne ih =>
    cases other with
    | nil => exact absurd rfl hne
    | cons e rest =>
      cases e with
      | modalSubmit v => exact absurd rfl (hnm v rest)
      | component c =>
        rw [runEditor_edit_name_comp]
        exact ih
  case case10 state other hnm hne ih =>
    cases other with
    | nil => exact absurd rfl hne
    | cons e rest =>
      cases e with
      | modalSubmit v => exact absurd rfl (hnm v rest)
      | component c =>
        rw [runEditor_edit_restrictions_comp]
        exact ih

/-- C6. The editor sub-session returns a final draft iff its exit event
is the save action (cancel and timeout return no draft); and whenever the
editor run yields no draft, `handle_license_selection_flow` leaves the
store unchanged: no license record is created and no default-license
setting changes. -/
theorem C6_editor_save_only (s : LicenseEditState) (events : List EditorEvent)
    (db : BotDatabase) (thread : ThreadInfo) (owner_id : Int) (env : FlowEnv)
    (script : HandlerScript)
    (hnone : ∀ init,
      (runSerenityLicenseEditor init script.editorEvents).state = none) :
    ((runSerenityLicenseEditor s events).state.isSome = true ↔
      (runSerenityLicenseEditor s events).exit = .saved) ∧
    ((runSerenityLicenseEditor s events).exit = .cancelled ∨
        (runSerenityLicenseEditor s events).exit = .timedOut →
      (runSerenityLicenseEditor s events).state = none) ∧
    (handle_license_selection_flow db thread owner_id env script).db = db := by
  have h1 := runEditor_saved_iff s events
  refine ⟨h1, ?_, ?_⟩
  · intro hex
    cases hst : (runSerenityLicenseEditor s events).state with
    | none => rfl
    | some d =>
      have hsaved : (runSerenityLicenseEditor s events).exit = .saved :=
        h1.mp (by simp [hst])
      rcases hex with he | he <;> rw [he] at hsaved <;> exact absurd hsaved
        (by simp)
  · unfold handle_license_selection_flow
    cases hsel : script.selectionResponse with
    | none => rfl
    | some selected =>
      cases hinit : selectionInitialState selected env.system_licenses with
      | error e => simp [hinit]
      | ok init => simp [hinit, hnone init]

/-- Witness for C6: with an empty editor script every run returns no draft,
and the selection flow leaves the concrete store untouched; a lone cancel
press also yields no draft. -/
theorem C6_editor_save_only_witness :
    (handle_license_selection_flow skipDb fixtureThread 7 fixtureEnv
      silentScript).db = skipDb ∧
    ((runSerenityLicenseEditor (LicenseEditState.new "X")
        [.component "cancel_license"]).state.isSome = true ↔
      (runSerenityLicenseEditor (LicenseEditState.new "X")
        [.component "cancel_license"]).exit = .saved) :=
  ⟨(C6_editor_save_only (LicenseEditState.new "X") [] skipDb fixtureThread 7
      fixtureEnv silentScript
      (fun init => by simp [silentScript, runSerenityLicenseEditor.eq_1])).2.2,
   (C6_editor_save_only (LicenseEditState.new "X")
      [.component "cancel_license"] skipDb fixtureThread 7 fixtureEnv
      silentScript
      (fun init => by simp [silentScript, runSerenityLicenseEditor.eq_1])).1⟩

/-- C9. Every wait inside the editor sub-session is bounded so that the
session spends at most 600 seconds waiting beyond the user's last event
(300-second modal wait chained into a 300-second component wait at worst),
and a session that ends through such waiting returns no draft and cleans up
its UI. -/
theorem C9_editor_inactivity_bound (s : LicenseEditState)
    (events : List EditorEvent) :
    (runSerenityLicenseEditor s events).trailingWait ≤ 600 ∧
    (0 < (runSerenityLicenseEditor s events).trailingWait →
      (runSerenityLicenseEditor s events).state = none ∧
      (runSerenityLicenseEditor s events).cleanedUp = true) :=
  ⟨(runEditor_trailing s events).1,
   fun h => ⟨(runEditor_trailing s events).2 h, runEditor_cleanedUp s events⟩⟩

/-- Witness for C9: a run whose script is exhausted immediately waits 300
seconds, which is within the 600-second bound, and returns no draft with a
cleaned-up UI. -/
theorem C9_editor_inactivity_bound_witness :
    0 < (runSerenityLicenseEditor (LicenseEditState.new "X") []).trailingWait ∧
    ((runSerenityLicenseEditor (LicenseEditState.new "X") []).trailingWait ≤
        600 ∧
      ((runSerenityLicenseEditor (LicenseEditState.new "X") []).state = none ∧
        (runSerenityLicenseEditor (LicenseEditState.new "X") []).cleanedUp =
          true)) :=
  ⟨by rw [runSerenityLicenseEditor.eq_1]; decide,
   ⟨(C9_editor_inactivity_bound (LicenseEditState.new "X") []).1,
    (C9_editor_inactivity_bound (LicenseEditState.new "X") []).2
      (by rw [runSerenityLicenseEditor.eq_1]; decide)⟩⟩

/-- C1. For every admitted, fresh trigger, the initial dispatch follows
the persisted preference: no record — guidance prompt and
`AwaitingGuidance`; record with auto-publish disabled — silent end, no
message and no store change; enabled but unresolvable default — silent
end; enabled, resolvable, `skipConfirmation` — direct publish with exactly
one announcement and no prompt; otherwise — the confirm panel and
`ConfirmingPublish`. -/
theorem C1_initial_dispatch (cache : DedupCache) (db : BotDatabase)
    (thread : ThreadInfo) (owner_id : Int) (env : FlowEnv)
    (script : HandlerScript)
    (hfresh : staleThread thread env = false) :
    (UserSettingsService.get db owner_id = none →
      AutoPublishFlow.handle_initial_state db thread owner_id env =
        { state := .AwaitingGuidance, db := db,
          effects := [.readUserSettings owner_id] } ∧
      (autoPublishDispatch cache db thread owner_id env
        script).effects.take 2 =
        [.readUserSettings owner_id, .sendGuidancePrompt]) ∧
    (∀ s, UserSettingsService.get db owner_id = some s →
      s.auto_publish_enabled = false →
      AutoPublishFlow.handle_initial_state db thread owner_id env =
        { state := .Done, db := db,
          effects := [.readUserSettings owner_id] } ∧
      autoPublishDispatch cache db thread owner_id env script =
        { db := db, cache := cache,
          effects := [.readUserSettings owner_id] }) ∧
    (∀ s, UserSettingsService.get db owner_id = some s →
      s.auto_publish_enabled = true →
      (defaultLicenseOf s = none →
        AutoPublishFlow.handle_initial_state db thread owner_id env =
          { state := .Done, db := db,
            effects := [.readUserSettings owner_id] }) ∧
      (∀ dli, defaultLicenseOf s = some dli →
        (get_license_model db owner_id env.system_licenses s dli
          env.now).2 = none →
        AutoPublishFlow.handle_initial_state db thread owner_id env =
          { state := .Done, db := db,
            effects := .readUserSettings owner_id ::
              (get_license_model db owner_id env.system_licenses s dli
                env.now).1 })) ∧
    (∀ s dli license, UserSettingsService.get db owner_id = some s →
      s.auto_publish_enabled = true →
      defaultLicenseOf s = some dli →
      (get_license_model db owner_id env.system_licenses s dli env.now).2 =
        some license →
      s.skip_auto_publish_confirmation = true →
      AutoPublishFlow.handle_initial_state db thread owner_id env =
        { state := .Done,
          db := (LicensePublishService.publish db (thread.id : Int) license
            license.allow_backup owner_id env.new_message_id env.now).1,
          effects := [Effect.readUserSettings owner_id] ++
            (get_license_model db owner_id env.system_licenses s dli
              env.now).1 ++
            (LicensePublishService.publish db (thread.id : Int) license
              license.allow_backup owner_id env.new_message_id env.now).2 } ∧
      countAnnouncements
        (AutoPublishFlow.handle_initial_state db thread owner_id
          env).effects = 1 ∧
      (∀ e ∈ (AutoPublishFlow.handle_initial_state db thread owner_id
        env).effects, e.isPrompt = false)) ∧
    (∀ s dli license, UserSettingsService.get db owner_id = some s →
      s.auto_publish_enabled = true →
      defaultLicenseOf s = some dli →
      (get_license_model db owner_id env.system_licenses s dli env.now).2 =
        some license →
      s.skip_auto_publish_confirmation = false →
      AutoPublishFlow.handle_initial_state db thread owner_id env =
        { state := .ConfirmingPublish license, db := db,
          effects := [Effect.readUserSettings owner_id] ++
            (get_license_model db owner_id env.system_licenses s dli
              env.now).1 ++ [.sendConfirmPanel] }) := by
  refine ⟨?_, ?_, ?_, ?_, ?_⟩
  · intro hget
    constructor
    · simp [AutoPublishFlow.handle_initial_state, hfresh, hget]
    · simp [autoPublishDispatch, hget, List.take_succ_cons,
        handle_new_user_guidance_effects_head]
  · intro s hget hen
    constructor
    · simp [AutoPublishFlow.handle_initial_state, hfresh, hget, hen]
    · simp [autoPublishDispatch, hget, hen]
  · intro s hget hen
    constructor
    · intro hdef
      simp [AutoPublishFlow.handle_initial_state, hfresh, hget, hen, hdef]
    · intro dli hdef hres
      simp [AutoPublishFlow.handle_initial_state, hfresh, hget, hen, hdef,
        hres]
  · intro s dli license hget hen hdef hres hskip
    have hstep :
        AutoPublishFlow.handle_initial_state db thread owner_id env =
          { state := .Done,
            db := (LicensePublishService.publish db (thread.id : Int) license
              license.allow_backup owner_id env.new_message_id env.now).1,
            effects := [Effect.readUserSettings owner_id] ++
              (get_license_model db owner_id env.system_licenses s dli
                env.now).1 ++
              (LicensePublishService.publish db (thread.id : Int) license
                license.allow_backup owner_id env.new_message_id
                env.now).2 } := by
      simp [AutoPublishFlow.handle_initial_state, hfresh, hget, hen, hdef,
        hres, hskip]
    refine ⟨hstep, ?_, ?_⟩
    · rw [hstep]
      have hres1 : countAnnouncements
          (get_license_model db owner_id env.system_licenses s dli
            env.now).1 = 0 := by
        cases dli <;> simp [get_license_model, countAnnouncements,
          Effect.isAnnouncement]
      rw [countAnnouncements_append, countAnnouncements_append, hres1,
        countAnnouncements_publish]
      simp [countAnnouncements, Effect.isAnnouncement]
    · rw [hstep]
      intro e he
      simp only [List.mem_append] at he
      rcases he with (he | he) | he
      · simp only [List.mem_singleton] at he
        rw [he]
        rfl
      · exact (get_license_model_effects db owner_id env.system_licenses s
          dli env.now e he).1
      · exact publish_no_prompt db (thread.id : Int) license
          license.allow_backup owner_id env.new_message_id env.now e he
  · intro s dli license hget hen hdef hres hskip
    simp [AutoPublishFlow.handle_initial_state, hfresh, hget, hen, hdef,
      hres, hskip]

/-- Witness for C1: a fresh thread by user 7 whose stored preference has
auto-publish disabled ends silently in both the flow step and the
registered handler's dispatch. -/
theorem C1_initial_dispatch_witness :
    (staleThread fixtureThread fixtureEnv = false ∧
      UserSettingsService.get disabledDb 7 = some disabledSettings ∧
      disabledSettings.auto_publish_enabled = false) ∧
    (AutoPublishFlow.handle_initial_state disabledDb fixtureThread 7
        fixtureEnv =
      { state := .Done, db := disabledDb,
        effects := [.readUserSettings 7] } ∧
    autoPublishDispatch [] disabledDb fixtureThread 7 fixtureEnv
        silentScript =
      { db := disabledDb, cache := [],
        effects := [.readUserSettings 7] }) :=
  ⟨⟨by decide, by decide, rfl⟩,
   (C1_initial_dispatch [] disabledDb fixtureThread 7 fixtureEnv
      silentScript (by decide)).2.1 disabledSettings (by decide) rfl⟩

/-- Witness for C4 (amended): publishing the stored license of user 7 into
thread 42 bumps its usage count from 0 to 1. -/
theorem C4_publish_usage_witness :
    LicenseService.get_license oneLicenseDb fixtureLicense.id 7 =
      some fixtureLicense ∧
    LicenseService.get_license
      (LicensePublishService.publish oneLicenseDb 42 fixtureLicense
        fixtureLicense.allow_backup 7 100 0).1 fixtureLicense.id 7 =
      some { fixtureLicense with usage_count := fixtureLicense.usage_count + 1 } :=
  ⟨by decide,
   (C4_publish_usage oneLicenseDb 42 fixtureLicense
      fixtureLicense.allow_backup 7 100 0 fixtureLicense (by decide)).2.1⟩

end DcBot
